import Mathlib

/-!
# Verification of the tool-dispatch orchestration backend (`backend/index.js`)

A shallow embedding of the orchestration core of the backend: the tool
executors (`fetchNews`, `getStockData`, `getBursaAnnouncements`,
`analyzeSocialSentiment`, `getEconomicIndicatorData`,
`getHistoricalStockData`, `getBursaHistoricalData`, `generateImage`,
`generateAudio`) and the `/analyze` request handler's dispatch /
synthesis / aggregation pipeline.

Modelling conventions:
* Each executor is a pure Lean function over a `World` record that holds
  the environment variables (API keys), the response each external
  provider would give to the one request the executor can make, the
  macro-indicator response cache, and a clock.  Asynchronous JS
  (`async`/`await` + `axios`) becomes explicit data flow; an `axios`
  rejection is a dedicated constructor of the provider-response type.
* The outbound HTTP request an executor performs is recorded as a
  `ProviderCall` value in the returned call list, so "no provider call
  is made" is the statement that that list is empty.
* JavaScript objects built by the executors become a single record type
  `ToolResult` whose fields are all optional; a JS object literal sets
  exactly the fields it mentions and leaves the rest `none`
  (= `undefined`).
* Machine numerics that the claims never inspect (`parseFloat`,
  `toFixed`, `Math.random`, `Date` arithmetic) are abstracted: numeric
  strings are carried verbatim, and `new Date(s).getTime()` is an
  oracle `dateVal : String → Option Int` in the `World` (`none` models
  an invalid date / `NaN`, which makes every JS `<`/`>=` comparison
  false).
-/

namespace HorizonAI

/-- One char list starts with another. -/
def charsPrefix : List Char → List Char → Bool
  | [], _ => true
  | _ :: _, [] => false
  | a :: as, b :: bs => a == b && charsPrefix as bs

/-- One char list occurs inside another. -/
def charsInfix (needle : List Char) : List Char → Bool
  | [] => charsPrefix needle []
  | b :: bs => charsPrefix needle (b :: bs) || charsInfix needle bs

/-- JS `hay.includes(needle)`: `true` iff `needle` occurs as a
substring of `hay`. -/
def mentions (hay needle : String) : Bool := charsInfix needle.data hay.data

/-- Stable insertion used to model `Array.prototype.sort(comparator)`
(ES2019 sorts are stable; the exact algorithm is unobservable). -/
def insertBy (le : α → α → Bool) (x : α) : List α → List α
  | [] => [x]
  | y :: ys => if le x y then x :: y :: ys else y :: insertBy le x ys

/-- Stable sort modelling `Array.prototype.sort(comparator)`. -/
def insSortBy (le : α → α → Bool) : List α → List α
  | [] => []
  | x :: xs => insertBy le x (insSortBy le xs)

/-- A dynamically-typed JavaScript value, as far as the handler's checks
on `call.name` can distinguish one (`!x`, `typeof x !== 'string'`,
`x.trim()`). -/
inductive JsVal where
  | undef
  | nullv
  | vstr (s : String)
  | vnum (n : Int)
  | vbool (b : Bool)
  | vobj
deriving DecidableEq

/-- JS truthiness of a `JsVal`. -/
def jsTruthy : JsVal → Bool
  | .undef => false
  | .nullv => false
  | .vstr s => s ≠ ""
  | .vnum n => n ≠ 0
  | .vbool b => b
  | .vobj => true

/-- `typeof v === 'string'`. -/
def isString : JsVal → Bool
  | .vstr _ => true
  | _ => false

/-- ASCII whitespace, for the JS `trim()` model. -/
def isWS (c : Char) : Bool := c = ' ' || c = '\t' || c = '\n' || c = '\r'

/-- `s.trim()` — remove leading and trailing whitespace (ASCII
whitespace suffices for this development). -/
def jsTrim (s : String) : String :=
  String.mk (((s.data.dropWhile isWS).reverse.dropWhile isWS).reverse)

/-- `s.toUpperCase()` (the tickers and codes involved are ASCII, where
JS and `Char.toUpper` agree). -/
def jsToUpper (s : String) : String := String.mk (s.data.map Char.toUpper)

/-- `s.toLowerCase()`. -/
def jsToLower (s : String) : String := String.mk (s.data.map Char.toLower)

/-- The string payload of a `JsVal` (only used after `isString`). -/
def jsStrVal : JsVal → String
  | .vstr s => s
  | _ => ""

/-- JS string truthiness on an optional field: the value survives an
`if (x)` guard iff it is present and non-empty. -/
def strTruthy : Option String → Option String
  | some s => if s = "" then none else some s
  | none => none

/-- One news article as mapped by `fetchNews` (`index.js:94-104`). -/
structure Article where
  title : String
  description : String
  url : String
  image : Option String
  publishedAt : String
  sourceName : String
  sourceUrl : String
deriving DecidableEq

/-- A raw GNews article before the mapping (fields the code reads). -/
structure ArticleRaw where
  title : String
  description : String
  url : String
  image : Option String
  publishedAt : Option String
  sourceName : Option String
  sourceUrl : Option String
deriving DecidableEq

/-- The quote object built by `getStockData` (`index.js:132-143`);
numeric fields keep the provider's strings (`parseFloat` abstracted). -/
structure StockInfo where
  ticker : String
  price : Option String
  openP : Option String
  highP : Option String
  lowP : Option String
  volume : Option String
  latestTradingDay : Option String
  prevClose : Option String
  change : Option String
  changePercent : Option String
deriving DecidableEq

/-- One mock Bursa announcement (`index.js:166-194`). -/
structure Announcement where
  date : String
  stockCode : String
  companyName : String
  category : String
  title : String
  details : String
  source : String
deriving DecidableEq

/-- The mock sentiment object (`index.js:206-214`). -/
structure SentimentData where
  keyword : String
  positiveMentions : Nat
  negativeMentions : Nat
  neutralMentions : Nat
  overallSentiment : String
  topThemes : List String
  source : String
deriving DecidableEq

/-- One point of the macro-indicator chart series (`index.js:284-291`);
`value` keeps the provider value verbatim. -/
structure EconPoint where
  date : String
  value : String
  category : String
  unit : String
  country : String
  title : String
deriving DecidableEq

/-- One row of the Trading Economics response array (fields read by
`getEconomicIndicatorData`). -/
structure TEItem where
  teDate : String
  teValue : String
  teCategory : String
  teUnit : String
  teCountry : String
  teIndicator : String
deriving DecidableEq

/-- One OHLCV point of a historical stock series (`index.js:378-386`);
numeric strings carried verbatim. -/
structure OHLCV where
  date : String
  openV : String
  highV : String
  lowV : String
  closeV : String
  adjClose : String
  vol : String
deriving DecidableEq

/-- The per-day values object of an Alpha Vantage time series entry
(keys `"1. open" .. "6. volume"`; `"5. adjusted close"` may be absent
for the non-adjusted shape). -/
structure DayVals where
  dOpen : String
  dHigh : String
  dLow : String
  dClose : String
  dAdjClose : Option String
  dVolume : String
deriving DecidableEq

/-- The JS object an executor returns: every return site of
`fetchNews`, `getStockData`, `getBursaAnnouncements`,
`analyzeSocialSentiment`, `getEconomicIndicatorData`,
`getHistoricalStockData`, `getBursaHistoricalData`, `generateImage` and
`generateAudio` builds an object literal setting some of these fields;
the rest are `undefined` (`none`). -/
structure ToolResult where
  error : Option String := none
  text : Option String := none
  articles : Option (List Article) := none
  stock_data : Option StockInfo := none
  announcements : Option (List Announcement) := none
  sentiment_data : Option SentimentData := none
  indicator : Option String := none
  country : Option String := none
  historical_economic_data : Option (List EconPoint) := none
  source : Option String := none
  ticker : Option String := none
  historical_data : Option (List OHLCV) := none
  imageUrl : Option String := none
  audioUrl : Option String := none
deriving DecidableEq

/-- A tool-specific success field is set.  `error` and `text` are not
success fields: `text` accompanies both halves (it is the
human-readable message of the error payload on the error half). -/
def hasSuccessPayload (r : ToolResult) : Bool :=
  r.articles.isSome || r.stock_data.isSome || r.announcements.isSome ||
  r.sentiment_data.isSome || r.indicator.isSome || r.country.isSome ||
  r.historical_economic_data.isSome || r.source.isSome || r.ticker.isSome ||
  r.historical_data.isSome || r.imageUrl.isSome || r.audioUrl.isSome

/-- A record of one outbound provider HTTP request, identified by the
data the code interpolates into the request (URL percent-encoding is
injective on these and elided). -/
inductive ProviderCall where
  | gnews (q : String)
  | avQuote (symbol : String)
  | avSeries (functionName : String) (symbol : String)
  | tradingEconomics (country : String) (endpoint : String)
      (d1 : Option String) (d2 : Option String)
  | stabilityImage (prompt : String)
  | elevenlabs (speech : String)
deriving DecidableEq

/-- GNews response: either the `axios` promise rejects, or it resolves
with `response.data.articles` (possibly absent). -/
inductive GNewsResp where
  | throwErr (msg : String)
  | ok (articles : Option (List ArticleRaw))

/-- Alpha Vantage GLOBAL_QUOTE response: rejection, or a body whose
`"Global Quote"` field is an object (kept as a key/value list) or
absent, plus an optional `"Error Message"` field. -/
inductive AVQuoteResp where
  | throwErr (msg : String)
  | ok (globalQuote : Option (List (String × String))) (errorMessage : Option String)

/-- The value found under the period's time-series key of an Alpha
Vantage historical response: an object of date/values entries, or a
string (rate-limit notes arrive as strings). -/
inductive SeriesField where
  | obj (entries : List (String × DayVals))
  | strVal (s : String)

/-- Alpha Vantage time-series response: rejection (with the HTTP status
of `error.response`, if any), or a body whose time-series key holds a
`SeriesField` or nothing, plus an optional `"Error Message"`. -/
inductive AVSeriesResp where
  | throwErr (status : Option Nat) (msg : String)
  | ok (series : Option SeriesField) (errorMessage : Option String)

/-- Trading Economics response: rejection (with optional HTTP status),
or a JSON array of rows. -/
inductive TEResp where
  | throwErr (status : Option Nat) (msg : String)
  | ok (data : List TEItem)

/-- Stability AI response: rejection (HTTP status plus the stringified
response data used by the 400 branch), or a body with an `artifacts`
array of base64 blobs. -/
inductive ImageResp where
  | throwErr (status : Option Nat) (dataStr : String) (msg : String)
  | ok (artifacts : List String)

/-- ElevenLabs response: rejection (the error-message cascade of
`generateAudio` is abstracted into the one string it produces, since no
claim inspects it), or the audio bytes as base64. -/
inductive AudioResp where
  | throwErr (errMsg : String)
  | ok (base64 : String)

/-- The NodeCache instance (`stdTTL: 3600`), modelled as an association
list of key, value and absolute expiry time. -/
abbrev EconCache := List (String × ToolResult × Nat)

/-- `cache.get(k)` at time `now`: a live entry's value, else
`undefined`. -/
def cacheGet (c : EconCache) (now : Nat) (k : String) : Option ToolResult :=
  match c.find? (fun e => e.1 = k) with
  | some (_, v, exp) => if now < exp then some v else none
  | none => none

/-- `cache.set(k, v)` at time `now` with the instance TTL of 3600
seconds. -/
def cacheSet (c : EconCache) (now : Nat) (k : String) (v : ToolResult) : EconCache :=
  (k, v, now + 3600) :: c.filter (fun e => e.1 ≠ k)

/-- An exception value as the outer `catch` of `/analyze` inspects it:
`error.message` and `error.response?.status`. -/
structure JsError where
  message : String
  responseStatus : Option Nat
deriving DecidableEq

/-- The payload of a `function_response` message sent back to the model
(`index.js:780-787` and `793-800`): the error object
`{ error: toolResponse.error }` or the whole success result. -/
inductive FPayload where
  | perr (e : String)
  | pok (r : ToolResult)
deriving DecidableEq

/-- The world one `/analyze` request executes against: environment
variables, each provider's reply to the (at most one) request this run
can address to it, the shared cache, the clock, and the model's
synthesis behaviour for a `function_response` round trip (`.error`
models the `chat.sendMessage` promise rejecting). -/
structure World where
  gnewsKey : Option String
  avKey : Option String
  teKey : Option String
  stabilityKey : Option String
  elevenKey : Option String
  newsResp : GNewsResp
  quoteResp : AVQuoteResp
  histResp : AVSeriesResp
  teResp : TEResp
  imageResp : ImageResp
  audioResp : AudioResp
  cache : EconCache
  now : Nat
  nowISO : String
  dateVal : String → Option Int
  bursaSeries : String → List OHLCV
  synth : String × FPayload → Except JsError String

/-- `new Date(a) >= new Date(b)` (false whenever either date is
invalid, as NaN comparisons are). -/
def jsDateGe (w : World) (a b : String) : Bool :=
  match w.dateVal a, w.dateVal b with
  | some x, some y => y ≤ x
  | _, _ => false

/-- `new Date(a) <= new Date(b)`. -/
def jsDateLe (w : World) (a b : String) : Bool :=
  match w.dateVal a, w.dateVal b with
  | some x, some y => x ≤ y
  | _, _ => false

/-- The ascending-by-date sort comparator
`(a, b) => new Date(a).getTime() - new Date(b).getTime()`
(comparator behaviour on invalid dates is abstracted to a total
order). -/
def jsDateLeD (w : World) (a b : String) : Bool :=
  (w.dateVal a).getD 0 ≤ (w.dateVal b).getD 0

/-- `fetchNews` (`index.js:81-115`). -/
def fetchNews (keyword : String) (w : World) : ToolResult × List ProviderCall :=
  match w.gnewsKey with
  | none =>
    ({ error := some "GNews API key not found.",
       text := some "I cannot fetch news as the API key is not configured." }, [])
  | some _ =>
    let call := ProviderCall.gnews keyword
    match w.newsResp with
    | .throwErr _ =>
      ({ error := some ("Failed to fetch news for \"" ++ keyword ++ "\"."),
         text := some ("I encountered an issue fetching news for \"" ++ keyword ++ "\".") }, [call])
    | .ok arts? =>
      match arts? with
      | some raws =>
        if raws ≠ [] then
          let articles : List Article := raws.map (fun a =>
            { title := a.title, description := a.description, url := a.url,
              image := strTruthy a.image,
              publishedAt := (strTruthy a.publishedAt).getD w.nowISO,
              sourceName := (strTruthy a.sourceName).getD "Unknown",
              sourceUrl := (strTruthy a.sourceUrl).getD "#" })
          ({ articles := some articles,
             text := some (("Here are some recent news articles about " ++ keyword ++ ":\n\n") ++
               String.intercalate "\n" (articles.map (fun a => "- " ++ a.title ++ ": " ++ a.url))) },
           [call])
        else
          ({ error := some ("No news articles found for \"" ++ keyword ++ "\"."),
             text := some ("I couldn't find any recent news articles for \"" ++ keyword ++ "\".") }, [call])
      | none =>
        ({ error := some ("No news articles found for \"" ++ keyword ++ "\"."),
           text := some ("I couldn't find any recent news articles for \"" ++ keyword ++ "\".") }, [call])

/-- `toFixed(2)` on a parsed field, abstracted (`none` is `parseFloat`
of an absent field, printed `NaN`). -/
def numFmt (o : Option String) : String := o.getD "NaN"

/-- `getStockData` (`index.js:117-162`). -/
def getStockData (tickerArg : String) (w : World) : ToolResult × List ProviderCall :=
  match w.avKey with
  | none =>
    ({ error := some "Alpha Vantage API key not found.",
       text := some "I cannot fetch stock data as the API key is not configured." }, [])
  | some _ =>
    let call := ProviderCall.avQuote tickerArg
    match w.quoteResp with
    | .throwErr _ =>
      ({ error := some "Failed to fetch stock data.",
         text := some ("I encountered an issue fetching live stock data for \"" ++ tickerArg ++ "\".") }, [call])
    | .ok gq em =>
      let elseBranch : ToolResult :=
        match strTruthy em with
        | some m =>
          { error := some ("Alpha Vantage Error for \"" ++ tickerArg ++ "\": " ++ m),
            text := some ("I couldn't get live data for \"" ++ tickerArg ++ "\". Alpha Vantage said: \"" ++ m ++ "\"") }
        | none =>
          { error := some ("No live stock data found for \"" ++ tickerArg ++ "\"."),
            text := some ("I couldn't find live stock data for \"" ++ tickerArg ++ "\". It might be an invalid ticker.") }
      match gq with
      | some kvs =>
        match strTruthy (kvs.lookup "01. symbol") with
        | some sym =>
          let stockInfo : StockInfo :=
            { ticker := sym, price := kvs.lookup "05. price",
              openP := kvs.lookup "02. open", highP := kvs.lookup "03. high",
              lowP := kvs.lookup "04. low", volume := kvs.lookup "06. volume",
              latestTradingDay := kvs.lookup "07. latest trading day",
              prevClose := kvs.lookup "08. previous close",
              change := kvs.lookup "09. change",
              changePercent := kvs.lookup "10. change percent" }
          ({ stock_data := some stockInfo,
             text := some ("Here's the latest data for " ++ stockInfo.ticker ++ " as of " ++
               (stockInfo.latestTradingDay.getD "undefined") ++ ":\n" ++
               "Price: $" ++ numFmt stockInfo.price ++ "\n" ++
               "Change: $" ++ numFmt stockInfo.change ++ " (" ++ numFmt stockInfo.changePercent ++ "%)") },
           [call])
        | none => (elseBranch, [call])
      | none => (elseBranch, [call])

/-- `getBursaAnnouncements` (`index.js:164-202`); deterministic mock
data, no credential and no network call. -/
def getBursaAnnouncements (symbol : String) : ToolResult :=
  let u := jsToUpper symbol
  let mockAnnouncements : List Announcement :=
    [ { date := "2025-06-14", stockCode := u, companyName := u ++ " BERHAD",
        category := "General Announcement",
        title := "Proposed Solar Farm Expansion by " ++ u,
        details := u ++ " (Mock Bhd) has announced plans to invest heavily in a new 50MW solar farm in Kedah, aiming to boost renewable energy capacity. This is part of the national green energy initiative.",
        source := "Bursa Malaysia Mock Data" },
      { date := "2025-06-12", stockCode := u, companyName := u ++ " BERHAD",
        category := "Financial Results",
        title := "Q1 2025 Earnings Report for " ++ u,
        details := u ++ " reported a 10% increase in net profit for Q1 2025, driven by strong electricity demand from industrial sectors. Revenue stood at RM 12.5 billion.",
        source := "Bursa Malaysia Mock Data" },
      { date := "2025-06-11", stockCode := u, companyName := u ++ " BERHAD",
        category := "Corporate Action",
        title := "Dividend Declaration by " ++ u,
        details := u ++ " has declared a first interim dividend of 18 sen per share for the financial year ending December 31, 2025, payable on July 15, 2025.",
        source := "Bursa Malaysia Mock Data" } ]
  { announcements := some mockAnnouncements,
    text := some (("Here are some recent mock announcements for " ++ u ++ ":\n\n") ++
      String.intercalate "\n" (mockAnnouncements.map (fun a => "- " ++ a.title ++ " (" ++ a.date ++ ")")) ++
      "\n\n(This is mock data for demonstration purposes as no live Bursa API is integrated.)") }

/-- `analyzeSocialSentiment` (`index.js:204-223`); deterministic mock
data. -/
def analyzeSocialSentiment (keyword : String) : ToolResult :=
  let mockSentiment : SentimentData :=
    { keyword := keyword, positiveMentions := 75, negativeMentions := 15,
      neutralMentions := 10, overallSentiment := "mostly positive",
      topThemes := ["expansion plans", "market confidence", "regulatory outlook"],
      source := "Mock Social Media Analytics" }
  { sentiment_data := some mockSentiment,
    text := some ("Based on mock social media analytics for \"" ++ keyword ++ "\", the overall sentiment is " ++
      mockSentiment.overallSentiment ++ ". " ++
      "There were 75 positive, 15 negative, and 10 neutral mentions. " ++
      "Top themes include: " ++ String.intercalate ", " mockSentiment.topThemes ++ ". " ++
      "(This is mock data for demonstration purposes.)") }

/-- The cache key of `getEconomicIndicatorData` (`index.js:226`). -/
def econKey (indicatorCode countryCode : String) (startDate endDate : Option String) : String :=
  "economic_" ++ indicatorCode ++ "_" ++ countryCode ++ "_" ++
    startDate.getD "all" ++ "_" ++ endDate.getD "all"

/-- `cachedData.text` survives `if (!cachedData.text)`. -/
def textTruthyB (r : ToolResult) : Bool :=
  match r.text with
  | some t => t ≠ ""
  | none => false

/-- The cache-hit path's repair of a cached entry lacking a `text`
field (`index.js:231-233`). -/
def patchCached (v : ToolResult) (indicatorCode countryCode : String) : ToolResult :=
  if textTruthyB v then v
  else { v with text := some ("Here's the cached historical data for " ++
    ((strTruthy v.indicator).getD indicatorCode) ++ " in " ++
    ((strTruthy v.country).getD countryCode) ++ ". You can now plot this data on a graph.") }

/-- The `default:` message of the indicator switch (`index.js:262`),
naming the supported set. -/
def supportedSetMsg : String :=
  "I can only fetch data for 'CPI', 'PPI', 'FOMC' (for US interest rates), 'interest_rate', or 'GDP'."

/-- The indicator switch (`index.js:246-263`): the provider query term
and the effective country (the `fomc`/`interest_rate` cases reassign
`countryCode`); `none` is the unsupported default case. -/
def econEndpoint (ind countryName countryCode : String) : Option (String × String) :=
  match ind with
  | "cpi" => some ("consumer price index", countryCode)
  | "ppi" => some ("producer price index", countryCode)
  | "fomc" => some ("interest rate", "united states")
  | "interest_rate" =>
      some ("interest rate", if countryName = "united states" then "united states" else countryName)
  | "gdp" => some ("gdp growth rate", countryCode)
  | _ => none

/-- `getEconomicIndicatorData` (`index.js:225-319`); returns the
result, the provider requests made, and the cache state after the
call. -/
def getEconomicIndicatorData (indicatorCode : String) (countryCode0 : Option String)
    (startDate endDate : Option String) (w : World) :
    ToolResult × List ProviderCall × EconCache :=
  let countryCode := countryCode0.getD "united states"
  let cacheKey := econKey indicatorCode countryCode startDate endDate
  match cacheGet w.cache w.now cacheKey with
  | some v => (patchCached v indicatorCode countryCode, [], w.cache)
  | none =>
  match w.teKey with
  | none =>
    ({ error := some "Trading Economics API key not found.",
       text := some "I cannot fetch economic data as the API key is not configured." }, [], w.cache)
  | some _ =>
    let countryName := jsToLower countryCode
    match econEndpoint (jsToLower indicatorCode) countryName countryCode with
    | none =>
      ({ error := some ("Unsupported economic indicator: \"" ++ indicatorCode ++ "\""),
         text := some supportedSetMsg },
       [], w.cache)
    | some (endpoint, effCountry) =>
      let dd : Option String × Option String :=
        if startDate.isSome ∧ endDate.isSome then (startDate, endDate) else (none, none)
      let call := ProviderCall.tradingEconomics effCountry endpoint dd.1 dd.2
      match w.teResp with
      | .throwErr st _ =>
        let errorMessage :=
          if st = some 401 then "Authentication failed for Trading Economics API. Check your API key."
          else if st = some 429 then "Trading Economics API rate limit exceeded. Please try again later."
          else "Failed to fetch economic data for \"" ++ indicatorCode ++ "\"."
        ({ error := some errorMessage,
           text := some ("I encountered an issue fetching economic data for \"" ++ indicatorCode ++ "\": " ++ errorMessage) },
         [call], w.cache)
      | .ok data =>
        if data ≠ [] then
          let pass := fun (item : TEItem) =>
            (startDate.isNone || jsDateGe w item.teDate (startDate.getD "")) &&
            (endDate.isNone || jsDateLe w item.teDate (endDate.getD ""))
          let pts : List EconPoint := (data.filter pass).map (fun item =>
            { date := (item.teDate.splitOn "T").headD "", value := item.teValue,
              category := item.teCategory, unit := item.teUnit,
              country := item.teCountry, title := item.teIndicator })
          let chartData := insSortBy (fun a b => jsDateLeD w a.date b.date) pts
          let headTitle := ((chartData.head?.bind (fun p => strTruthy (some p.title))).getD indicatorCode)
          let headCountry := ((chartData.head?.bind (fun p => strTruthy (some p.country))).getD effCountry)
          let result : ToolResult :=
            { indicator := some indicatorCode, country := some effCountry,
              historical_economic_data := some chartData,
              source := some "Trading Economics",
              text := some ("Here's the historical data for the " ++ headTitle ++ " in " ++ headCountry ++ ". You can now plot this data on a graph.") }
          (result, [call], cacheSet w.cache w.now cacheKey result)
        else
          ({ error := some ("No historical economic data found for \"" ++ indicatorCode ++ "\" in \"" ++ effCountry ++ "\"."),
             text := some ("I couldn't find historical economic data for \"" ++ indicatorCode ++ "\" in \"" ++ effCountry ++ "\". It might be an invalid indicator or country, or data is not available.") },
           [call], w.cache)

/-- The index-alias switch of `getHistoricalStockData`
(`index.js:332-351`), applied to the already-uppercased ticker. -/
def aliasTicker (u : String) : String :=
  match u with
  | "NASDAQ" => "QQQ"
  | "^IXIC" => "QQQ"
  | "NASDAQ 100" => "QQQ"
  | "COMPQ" => "QQQ"
  | "S&P 500" => "SPY"
  | "SP500" => "SPY"
  | "^GSPC" => "SPY"
  | "DOW JONES" => "DIA"
  | "DOW" => "DIA"
  | "^DJI" => "DIA"
  | _ => u

/-- The period switch (`index.js:353-368`): Alpha Vantage function name
and time-series response key. -/
def periodSeries (period : String) : Option (String × String) :=
  match period with
  | "daily" => some ("TIME_SERIES_DAILY_ADJUSTED", "Time Series (Daily)")
  | "weekly" => some ("TIME_SERIES_WEEKLY_ADJUSTED", "Weekly Adjusted Time Series")
  | "monthly" => some ("TIME_SERIES_MONTHLY_ADJUSTED", "Monthly Adjusted Time Series")
  | _ => none

/-- `getHistoricalStockData` (`index.js:321-412`). -/
def getHistoricalStockData (tickerArg : String) (period0 : Option String) (w : World) :
    ToolResult × List ProviderCall :=
  match w.avKey with
  | none =>
    ({ error := some "Alpha Vantage API key not found.",
       text := some "I cannot fetch historical stock data as the API key is not configured." }, [])
  | some _ =>
    let period := period0.getD "daily"
    let actualTicker := aliasTicker (jsToUpper tickerArg)
    match periodSeries period with
    | none =>
      ({ error := some "Invalid period specified for historical stock data. Choose 'daily', 'weekly', or 'monthly'.",
         text := some "I can only retrieve daily, weekly, or monthly historical data." }, [])
    | some (functionName, _) =>
      let call := ProviderCall.avSeries functionName actualTicker
      match w.histResp with
      | .throwErr st _ =>
        let errorMessage :=
          if st = some 401 then "Authentication failed for Alpha Vantage API. Check your API key."
          else if st = some 429 then "Alpha Vantage API rate limit exceeded. Please try again later."
          else "Failed to fetch " ++ period ++ " historical data for \"" ++ actualTicker ++ "\"."
        ({ error := some errorMessage,
           text := some ("I encountered an issue fetching historical stock data for \"" ++ actualTicker ++ "\": " ++ errorMessage) },
         [call])
      | .ok series em =>
        let elseBranch : ToolResult :=
          match strTruthy em with
          | some m =>
            { error := some ("Alpha Vantage Error for \"" ++ actualTicker ++ "\": " ++ m),
              text := some ("I couldn't get historical data for \"" ++ actualTicker ++ "\". Alpha Vantage said: \"" ++ m ++ "\"") }
          | none =>
            { error := some ("No historical " ++ period ++ " data found for \"" ++ actualTicker ++ "\"."),
              text := some ("I couldn't find historical " ++ period ++ " data for \"" ++ actualTicker ++ "\". It might be an invalid ticker or a rate limit issue.") }
        match series with
        | some (.obj entries) =>
          if entries ≠ [] then
            let historicalData := insSortBy (fun a b => jsDateLeD w a.date b.date)
              (entries.map (fun e =>
                ({ date := e.1, openV := e.2.dOpen, highV := e.2.dHigh,
                   lowV := e.2.dLow, closeV := e.2.dClose,
                   adjClose := (strTruthy e.2.dAdjClose).getD e.2.dClose,
                   vol := e.2.dVolume } : OHLCV)))
            ({ ticker := some actualTicker, historical_data := some historicalData,
               source := some "Alpha Vantage",
               text := some ("Here's the " ++ period ++ " historical data for " ++ actualTicker ++ ". You can use this to plot a chart showing its price trends.") },
             [call])
          else (elseBranch, [call])
        | some (.strVal _) => (elseBranch, [call])
        | none => (elseBranch, [call])

/-- `getBursaHistoricalData` (`index.js:415-453`); the 30-point
pseudo-random series (`Math.random`, `Date` arithmetic, `toFixed`) is
abstracted into the `bursaSeries` oracle of the `World`, since no
claim inspects the generated values — only the result's shape. -/
def getBursaHistoricalData (symbol : String) (period0 : Option String) (w : World) : ToolResult :=
  let period := period0.getD "daily"
  { ticker := some symbol, historical_data := some (w.bursaSeries period),
    source := some "Bursa Malaysia Mock Data",
    text := some ("Here's the mock " ++ period ++ " historical data for " ++ symbol ++ ". You can use this to plot a chart showing its price trends. (This is mock data)") }

/-- `generateImage` (`index.js:455-503`). -/
def generateImage (prompt : String) (w : World) : ToolResult × List ProviderCall :=
  match w.stabilityKey with
  | none =>
    ({ error := some "Stability AI API key not found.",
       text := some "I cannot generate an image as the API key is not configured." }, [])
  | some _ =>
    let call := ProviderCall.stabilityImage prompt
    match w.imageResp with
    | .ok artifacts =>
      match artifacts.head? with
      | some b64 =>
        ({ imageUrl := some ("data:image/png;base64," ++ b64),
           text := some "Here is the AI-generated image based on your request. I hope this visual insight is helpful!" }, [call])
      | none =>
        ({ error := some "No image artifacts found in generation response.",
           text := some "I tried to generate an image, but the service did not return any image data." }, [call])
    | .throwErr st dataStr _ =>
      let errorMessage :=
        if st = some 400 then "Stability AI API error: " ++ dataStr ++ ". This might be due to an invalid or inappropriate prompt."
        else if st = some 401 then "Authentication failed for Stability AI. Check your API key."
        else if st = some 429 then "Stability AI API rate limit exceeded. Please try again later."
        else "Failed to generate image."
      ({ error := some errorMessage,
         text := some ("I encountered an issue generating the image: " ++ errorMessage) }, [call])

/-- `generateAudio` (`index.js:505-547`); the catch's message cascade
(ElevenLabs `detail`, 401, 429, default) is abstracted into the one
message the cascade yields, carried by `AudioResp.throwErr`. -/
def generateAudio (speech : String) (w : World) : ToolResult × List ProviderCall :=
  match w.elevenKey with
  | none => ({ error := some "ElevenLabs API key not found." }, [])
  | some _ =>
    let call := ProviderCall.elevenlabs speech
    match w.audioResp with
    | .ok b64 => ({ audioUrl := some ("data:audio/mpeg;base64," ++ b64) }, [call])
    | .throwErr m => ({ error := some m }, [call])

/-- The eight tools wired into the `/analyze` dispatch switch
(`index.js:736-775`); the constructor names are the registry names. -/
inductive ToolName where
  | fetch_news
  | get_stock_data
  | get_bursa_announcements
  | analyze_social_sentiment
  | get_economic_indicator_data
  | get_historical_stock_data
  | get_bursa_historical_data
  | generate_image_tool
deriving DecidableEq

/-- The `call.args` object.  The registry marks `keyword` / `ticker` /
`symbol` / `indicatorCode` / `prompt` as required string parameters, so
they are modelled as present strings; the genuinely optional ones are
`Option` (absent = JS `undefined`, which triggers the executors'
default-parameter values). -/
structure Args where
  keyword : String := ""
  ticker : String := ""
  symbol : String := ""
  indicatorCode : String := ""
  countryCode : Option String := none
  startDate : Option String := none
  endDate : Option String := none
  period : Option String := none
  prompt : String := ""
deriving DecidableEq

/-- The dispatch switch's name lookup: which case the string label
selects; `none` is the `default:` case. -/
def toolOf (s : String) : Option ToolName :=
  match s with
  | "fetch_news" => some .fetch_news
  | "get_stock_data" => some .get_stock_data
  | "get_bursa_announcements" => some .get_bursa_announcements
  | "analyze_social_sentiment" => some .analyze_social_sentiment
  | "get_economic_indicator_data" => some .get_economic_indicator_data
  | "get_historical_stock_data" => some .get_historical_stock_data
  | "get_bursa_historical_data" => some .get_bursa_historical_data
  | "generate_image_tool" => some .generate_image_tool
  | _ => none

/-- The executor invocation each switch case performs
(`index.js:736-771`): the tool result, the provider requests made, and
the cache state afterwards (only the macro-indicator executor touches
the cache). -/
def runExecutor (t : ToolName) (a : Args) (w : World) :
    ToolResult × List ProviderCall × EconCache :=
  match t with
  | .fetch_news => let p := fetchNews a.keyword w; (p.1, p.2, w.cache)
  | .get_stock_data => let p := getStockData a.ticker w; (p.1, p.2, w.cache)
  | .get_bursa_announcements => (getBursaAnnouncements a.symbol, [], w.cache)
  | .analyze_social_sentiment => (analyzeSocialSentiment a.keyword, [], w.cache)
  | .get_economic_indicator_data =>
      getEconomicIndicatorData a.indicatorCode a.countryCode a.startDate a.endDate w
  | .get_historical_stock_data =>
      let p := getHistoricalStockData a.ticker a.period w; (p.1, p.2, w.cache)
  | .get_bursa_historical_data => (getBursaHistoricalData a.symbol a.period w, [], w.cache)
  | .generate_image_tool => let p := generateImage a.prompt w; (p.1, p.2, w.cache)

/-- The model's function-call object (`result.response.functionCall`):
a dynamically-typed `name` and the argument object. -/
structure FunctionCall where
  name : JsVal
  args : Args

/-- The pre-switch guard on `call.name` (`index.js:725`):
`!call.name || typeof call.name !== 'string' || call.name.trim() === ''`. -/
def nameInvalid (v : JsVal) : Bool :=
  !jsTruthy v || !isString v || jsTrim (jsStrVal v) = ""

/-- The JSON body `/analyze` sends: the success envelope
(`index.js:827-834`) or an error body (`res.status(...).json({error, details})`). -/
inductive Body where
  | envelope (summary : String) (imageUrl : Option String) (audioUrl : Option String)
      (historicalStockData : Option (List OHLCV))
      (historicalEconomicData : Option (List EconPoint))
      (articles : Option (List Article))
  | errBody (error : String) (details : Option String)
deriving DecidableEq

/-- What one `/analyze` run produced and did: HTTP status, JSON body,
the executors invoked, the provider requests made, the
`function_response` round trips sent to the model, the texts submitted
to audio synthesis, and the cache left behind. -/
structure AnalyzeResult where
  status : Nat
  body : Body
  executed : List ToolName
  providerCalls : List ProviderCall
  followups : List (String × FPayload)
  audioAttempts : List String
  cacheOut : EconCache

/-- The outer catch's user-facing message cascade
(`index.js:838-848`). -/
def catchMessage (e : JsError) : String :=
  if mentions e.message "functionCall" && !mentions e.message "response" then
    "I'm having trouble figuring out how to fulfill your request with my available tools. This might be a temporary issue or an unexpected query. Please try rephrasing."
  else if mentions e.message "API key" then
    "I'm experiencing an issue connecting to my AI service. Please check the backend API key configuration."
  else if e.responseStatus = some 429 then
    "My AI service is experiencing high demand. Please wait a moment and try again."
  else if mentions e.message "Request failed with status code" then
    "A service I rely on responded with an error (" ++ e.message ++ "). The data might be temporarily unavailable."
  else
    "I'm sorry, I encountered a critical error processing your request. Please try again. If the problem persists, ensure the backend server is running correctly and check its logs."

/-- The `/analyze` error body on a malformed function-call name
(`index.js:727-730`). -/
def invalidNameError : String :=
  "AI service returned an invalid function call (empty name). Please try again or rephrase your query."

/-- Its `details` field. -/
def invalidNameDetails : String := "Gemini function call name was empty or malformed."

/-- The `default:` case's error body (`index.js:774`). -/
def unrecognizedError (s : String) : String :=
  "AI requested an unrecognized function: '" ++ s ++ "'. Please try again or rephrase."

/-- Its `details` field. -/
def unrecognizedDetails (s : String) : String := "Unhandled tool: " ++ s

/-- The tail of the handler (`index.js:816-834`): attempt audio
synthesis when `finalResponseText` is truthy, then send the 200
envelope. -/
def finishEnvelope (txt : String) (iu : Option String)
    (hs : Option (List OHLCV)) (he : Option (List EconPoint)) (arts : Option (List Article))
    (w : World) (cacheAfter : EconCache) (executed : List ToolName)
    (pcs : List ProviderCall) (fus : List (String × FPayload)) : AnalyzeResult :=
  if txt ≠ "" then
    let au := generateAudio txt w
    { status := 200,
      body := .envelope txt iu (strTruthy au.1.audioUrl) hs he arts,
      executed := executed, providerCalls := pcs ++ au.2, followups := fus,
      audioAttempts := [txt], cacheOut := cacheAfter }
  else
    { status := 200, body := .envelope txt iu none hs he arts,
      executed := executed, providerCalls := pcs, followups := fus,
      audioAttempts := [], cacheOut := cacheAfter }

/-- The outer catch (`index.js:836-851`). -/
def catchResult (e : JsError) (executed : List ToolName) (pcs : List ProviderCall)
    (fus : List (String × FPayload)) (cacheAfter : EconCache) : AnalyzeResult :=
  { status := 500, body := .errBody (catchMessage e) (some e.message),
    executed := executed, providerCalls := pcs, followups := fus,
    audioAttempts := [], cacheOut := cacheAfter }

/-- The `/analyze` handler from the point where the model's plan is
known (`index.js:716-851`): `call` is
`result.response.functionCall`, `directText` is `result.response.text()`
for the no-tool branch, and `w` is the world the run executes
against. -/
def analyze (call : Option FunctionCall) (directText : String) (w : World) : AnalyzeResult :=
  match call with
  | none => finishEnvelope directText none none none none w w.cache [] [] []
  | some c =>
    if nameInvalid c.name then
      { status := 500, body := .errBody invalidNameError (some invalidNameDetails),
        executed := [], providerCalls := [], followups := [],
        audioAttempts := [], cacheOut := w.cache }
    else
      let s := jsStrVal c.name
      match toolOf s with
      | none =>
        { status := 400, body := .errBody (unrecognizedError s) (some (unrecognizedDetails s)),
          executed := [], providerCalls := [], followups := [],
          audioAttempts := [], cacheOut := w.cache }
      | some t =>
        let R := runExecutor t c.args w
        let tr := R.1
        let imageUrl0 := if t = .generate_image_tool then strTruthy tr.imageUrl else none
        let articles0 := if t = .fetch_news then tr.articles else none
        match tr.error with
        | some m =>
          let fu := (s, FPayload.perr m)
          match w.synth fu with
          | .error e => catchResult e [t] R.2.1 [fu] R.2.2
          | .ok txt =>
            let imageUrl1 := if s = "generate_image_tool" then none else imageUrl0
            finishEnvelope txt imageUrl1 none none articles0 w R.2.2 [t] R.2.1 [fu]
        | none =>
          let fu := (s, FPayload.pok tr)
          match w.synth fu with
          | .error e => catchResult e [t] R.2.1 [fu] R.2.2
          | .ok txt =>
            finishEnvelope txt imageUrl0 tr.historical_data tr.historical_economic_data
              articles0 w R.2.2 [t] R.2.1 [fu]

/-- Replace a world's audio configuration (ElevenLabs credential and
provider behaviour), leaving everything else unchanged. -/
def setAudio (w : World) (k : Option String) (r : AudioResp) : World :=
  { w with elevenKey := k, audioResp := r }

/-- Erase the audio artifact from a body, to state that everything
else is independent of audio synthesis. -/
def stripAudio : Body → Body
  | .envelope s iu _ hs he arts => .envelope s iu none hs he arts
  | .errBody e d => .errBody e d

/-- The shape of every value `getEconomicIndicatorData` writes to the
cache: a success result (no `error`, a chart series, a truthy
`text`). -/
def econSuccessB (r : ToolResult) : Bool :=
  r.error.isNone && r.historical_economic_data.isSome && textTruthyB r

/-- A reachable cache state: every stored value is a macro-indicator
success result — the only writes the code performs
(`index.js:302`). -/
def ValidCache (c : EconCache) : Prop :=
  ∀ e ∈ c, econSuccessB e.2.1 = true

/-- A live `cache.get` hit on a reachable cache yields a success
value. -/
lemma cacheGet_valid {c : EconCache} {now : Nat} {k : String} {v : ToolResult}
    (hc : ValidCache c) (h : cacheGet c now k = some v) : econSuccessB v = true := by
  unfold cacheGet at h
  cases hfind : c.find? (fun e => e.1 = k) with
  | none => rw [hfind] at h; exact absurd h (by simp)
  | some e =>
    rw [hfind] at h
    have hmem := List.mem_of_find?_eq_some hfind
    have he := hc e hmem
    obtain ⟨k', v', exp'⟩ := e
    change (if now < exp' then some v' else none) = some v at h
    by_cases hlt : now < exp'
    · rw [if_pos hlt] at h
      cases h
      exact he
    · rw [if_neg hlt] at h
      exact absurd h (by simp)

/-- On a success value the cache-hit repair is the identity. -/
lemma patchCached_of_success {v : ToolResult} (h : econSuccessB v = true)
    (i c : String) : patchCached v i c = v := by
  unfold patchCached
  simp only [econSuccessB, Bool.and_eq_true] at h
  rw [if_pos h.2]

/-- `fetchNews` returns exactly one of error and success payload. -/
lemma fetchNews_excl (k : String) (w : World) :
    (fetchNews k w).1.error.isSome = !hasSuccessPayload (fetchNews k w).1 := by
  unfold fetchNews
  rcases w.gnewsKey with _ | gk
  · simp [hasSuccessPayload]
  · rcases w.newsResp with m | arts?
    · simp [hasSuccessPayload]
    · rcases arts? with _ | raws
      · simp [hasSuccessPayload]
      · by_cases hr : raws = [] <;> simp [hr, hasSuccessPayload]

/-- `getStockData` returns exactly one of error and success payload. -/
lemma getStockData_excl (t : String) (w : World) :
    (getStockData t w).1.error.isSome = !hasSuccessPayload (getStockData t w).1 := by
  unfold getStockData
  rcases w.avKey with _ | k
  · simp [hasSuccessPayload]
  · rcases w.quoteResp with m | ⟨gq, em⟩
    · simp [hasSuccessPayload]
    · rcases gq with _ | kvs
      · rcases hem : strTruthy em with _ | m <;> simp [hasSuccessPayload, hem]
      · rcases hsym : strTruthy (kvs.lookup "01. symbol") with _ | sym
        · rcases hem : strTruthy em with _ | m <;> simp [hasSuccessPayload, hem, hsym]
        · simp [hasSuccessPayload, hsym]

/-- `getBursaAnnouncements` always succeeds, with the success shape. -/
lemma getBursaAnnouncements_excl (s : String) :
    (getBursaAnnouncements s).error.isSome = !hasSuccessPayload (getBursaAnnouncements s) := by
  simp [getBursaAnnouncements, hasSuccessPayload]

/-- `analyzeSocialSentiment` always succeeds, with the success shape. -/
lemma analyzeSocialSentiment_excl (s : String) :
    (analyzeSocialSentiment s).error.isSome = !hasSuccessPayload (analyzeSocialSentiment s) := by
  simp [analyzeSocialSentiment, hasSuccessPayload]

/-- `getEconomicIndicatorData` returns exactly one of error and success
payload, on any reachable cache state. -/
lemma econ_excl (ind : String) (cc sd ed : Option String) (w : World)
    (hv : ValidCache w.cache) :
    (getEconomicIndicatorData ind cc sd ed w).1.error.isSome =
      !hasSuccessPayload (getEconomicIndicatorData ind cc sd ed w).1 := by
  simp only [getEconomicIndicatorData]
  rcases hg : cacheGet w.cache w.now (econKey ind (cc.getD "united states") sd ed) with _ | v
  · rcases w.teKey with _ | tk
    · simp [hasSuccessPayload]
    · rcases econEndpoint (jsToLower ind) (jsToLower (cc.getD "united states")) (cc.getD "united states")
        with _ | ⟨ep, ec⟩
      · simp [hasSuccessPayload]
      · rcases w.teResp with ⟨st, m⟩ | data
        · simp [hasSuccessPayload]
        · by_cases hd : data = [] <;> simp [hd, hasSuccessPayload]
  · dsimp only
    have hvv := cacheGet_valid hv hg
    rw [patchCached_of_success hvv]
    simp only [econSuccessB, Bool.and_eq_true] at hvv
    have h1 : v.error = none := Option.isNone_iff_eq_none.mp hvv.1.1
    simp [hasSuccessPayload, h1, hvv.1.2]

/-- `getHistoricalStockData` returns exactly one of error and success
payload. -/
lemma getHist_excl (t : String) (p : Option String) (w : World) :
    (getHistoricalStockData t p w).1.error.isSome =
      !hasSuccessPayload (getHistoricalStockData t p w).1 := by
  unfold getHistoricalStockData
  dsimp only
  rcases w.avKey with _ | k
  · simp [hasSuccessPayload]
  · rcases periodSeries (p.getD "daily") with _ | ⟨fn, tsk⟩
    · simp [hasSuccessPayload]
    · rcases w.histResp with ⟨st, m⟩ | ⟨series, em⟩
      · simp [hasSuccessPayload]
      · rcases series with _ | sf
        · rcases hem : strTruthy em with _ | m <;> simp [hasSuccessPayload, hem]
        · rcases sf with entries | sv
          · by_cases he : entries = []
            · rcases hem : strTruthy em with _ | m <;> simp [hasSuccessPayload, hem, he]
            · simp [hasSuccessPayload, he]
          · rcases hem : strTruthy em with _ | m <;> simp [hasSuccessPayload, hem]

/-- `getBursaHistoricalData` always succeeds, with the success
shape. -/
lemma getBursaHist_excl (s : String) (p : Option String) (w : World) :
    (getBursaHistoricalData s p w).error.isSome =
      !hasSuccessPayload (getBursaHistoricalData s p w) := by
  simp [getBursaHistoricalData, hasSuccessPayload]

/-- `generateImage` returns exactly one of error and success
payload. -/
lemma generateImage_excl (pr : String) (w : World) :
    (generateImage pr w).1.error.isSome = !hasSuccessPayload (generateImage pr w).1 := by
  unfold generateImage
  rcases w.stabilityKey with _ | k
  · simp [hasSuccessPayload]
  · rcases w.imageResp with ⟨st, ds, m⟩ | artifacts
    · simp [hasSuccessPayload]
    · rcases artifacts with _ | ⟨b, bs⟩ <;> simp [hasSuccessPayload]

/-- Every registered executor's result sets exactly one of the error
field and a success payload (on any reachable cache). -/
lemma runExecutor_excl (t : ToolName) (a : Args) (w : World) (hv : ValidCache w.cache) :
    (runExecutor t a w).1.error.isSome = !hasSuccessPayload (runExecutor t a w).1 := by
  cases t <;> simp only [runExecutor]
  case fetch_news => exact fetchNews_excl _ _
  case get_stock_data => exact getStockData_excl _ _
  case get_bursa_announcements => exact getBursaAnnouncements_excl _
  case analyze_social_sentiment => exact analyzeSocialSentiment_excl _
  case get_economic_indicator_data => exact econ_excl _ _ _ _ _ hv
  case get_historical_stock_data => exact getHist_excl _ _ _
  case get_bursa_historical_data => exact getBursaHist_excl _ _ _
  case generate_image_tool => exact generateImage_excl _ _

/-- A raw article for the benign world. -/
def rawArticle0 : ArticleRaw :=
  { title := "t", description := "d", url := "u", image := none,
    publishedAt := none, sourceName := none, sourceUrl := none }

/-- A day of Alpha Vantage values for the benign world. -/
def dayVals0 : DayVals :=
  { dOpen := "1", dHigh := "2", dLow := "0", dClose := "1.5",
    dAdjClose := some "1.5", dVolume := "100" }

/-- A Trading Economics row for the benign world. -/
def teItem0 : TEItem :=
  { teDate := "2020-01-01T00:00:00", teValue := "2.3", teCategory := "cat",
    teUnit := "percent", teCountry := "United States",
    teIndicator := "Consumer Price Index" }

/-- A concrete benign world for instantiating theorems: every
credential configured, every provider answering successfully, an empty
cache, a model that synthesizes fixed text. -/
def w0 : World :=
  { gnewsKey := some "G", avKey := some "A", teKey := some "T",
    stabilityKey := some "S", elevenKey := some "E",
    newsResp := .ok (some [rawArticle0]),
    quoteResp := .ok (some [("01. symbol", "AAPL"), ("05. price", "170.00")]) none,
    histResp := .ok (some (.obj [("2024-01-02", dayVals0)])) none,
    teResp := .ok [teItem0],
    imageResp := .ok ["IMG64"],
    audioResp := .ok "AUD64",
    cache := [], now := 0, nowISO := "2026-01-01T00:00:00.000Z",
    dateVal := fun _ => some 0,
    bursaSeries := fun _ => [],
    synth := fun _ => .ok "synth text" }

/-- C1: for every registered tool and every argument mapping (the
required parameters being strings, as the registry declares), the
executor's outcome sets exactly one of the `error` field and a
tool-specific success field — never both, never neither — on any
reachable cache state. -/
theorem C1_executor_outcome_exclusive (t : ToolName) (a : Args) (w : World)
    (hv : ValidCache w.cache) :
    (runExecutor t a w).1.error.isSome = !hasSuccessPayload (runExecutor t a w).1 :=
  runExecutor_excl t a w hv

/-- C1 witness: the quote executor at a concrete world. -/
theorem C1_executor_outcome_exclusive_witness :
    (runExecutor .get_stock_data { ticker := "AAPL" } w0).1.error.isSome =
      !hasSuccessPayload (runExecutor .get_stock_data { ticker := "AAPL" } w0).1 :=
  C1_executor_outcome_exclusive .get_stock_data { ticker := "AAPL" } w0
    (by intro e he; simp [w0] at he)

/-- C2: whenever the model's function-call object has a `name` that is
absent / not a string, or is a string that is empty or whitespace, the
handler answers 500 with the distinct "invalid AI response" error
before any executor runs — no executor is invoked and no provider call
is made. -/
theorem C2_invalid_name_short_circuits (c : FunctionCall) (dt : String) (w : World)
    (h : (∀ s, c.name ≠ JsVal.vstr s) ∨ ∃ s, c.name = JsVal.vstr s ∧ jsTrim s = "") :
    analyze (some c) dt w =
      { status := 500, body := .errBody invalidNameError (some invalidNameDetails),
        executed := [], providerCalls := [], followups := [],
        audioAttempts := [], cacheOut := w.cache } := by
  have hinv : nameInvalid c.name = true := by
    rcases h with h | ⟨s, hs, ht⟩
    · cases hn : c.name with
      | vstr s => exact absurd hn (h s)
      | undef => simp [nameInvalid, jsTruthy]
      | nullv => simp [nameInvalid, jsTruthy]
      | vnum n => simp [nameInvalid, isString]
      | vbool b => simp [nameInvalid, isString]
      | vobj => simp [nameInvalid, isString]
    · rw [hs]; simp [nameInvalid, jsStrVal, ht]
  simp [analyze, hinv]

/-- C2 witness: the empty-string name at a concrete world. -/
theorem C2_invalid_name_short_circuits_witness :
    analyze (some { name := JsVal.vstr "", args := {} }) "hi" w0 =
      { status := 500, body := .errBody invalidNameError (some invalidNameDetails),
        executed := [], providerCalls := [], followups := [],
        audioAttempts := [], cacheOut := w0.cache } :=
  C2_invalid_name_short_circuits _ _ _ (Or.inr ⟨"", rfl, rfl⟩)

/-- C3: a non-empty tool name that matches no case of the dispatch
switch yields the 400 "unrecognized function" error, and no executor is
invoked. -/
theorem C3_unrecognized_name (c : FunctionCall) (dt : String) (w : World) (s : String)
    (hn : c.name = .vstr s) (hs : jsTrim s ≠ "") (hu : toolOf s = none) :
    analyze (some c) dt w =
      { status := 400,
        body := .errBody (unrecognizedError s) (some (unrecognizedDetails s)),
        executed := [], providerCalls := [], followups := [],
        audioAttempts := [], cacheOut := w.cache } := by
  have hsne : s ≠ "" := fun h => hs (by rw [h]; rfl)
  have hinv : nameInvalid (JsVal.vstr s) = false := by
    simp [nameInvalid, jsTruthy, isString, jsStrVal, hsne, hs]
  simp [analyze, hn, hinv, jsStrVal, hu]

/-- C3 witness: a concrete unregistered name. -/
theorem C3_unrecognized_name_witness :
    analyze (some { name := JsVal.vstr "no_such_tool", args := {} }) "hi" w0 =
      { status := 400,
        body := .errBody (unrecognizedError "no_such_tool") (some (unrecognizedDetails "no_such_tool")),
        executed := [], providerCalls := [], followups := [],
        audioAttempts := [], cacheOut := w0.cache } :=
  C3_unrecognized_name _ _ _ "no_such_tool" rfl (by decide) rfl

/-- The ticker symbol a provider request queries, when it is an Alpha
Vantage request. -/
def providerSymbol : ProviderCall → Option String
  | .avQuote s => some s
  | .avSeries _ s => some s
  | _ => none

/-- The raw alias strings handled by the index-alias switch. -/
def aliasNames : List String :=
  ["NASDAQ", "^IXIC", "NASDAQ 100", "COMPQ",
   "S&P 500", "SP500", "^GSPC",
   "DOW JONES", "DOW", "^DJI"]

/-- C7: whenever the historical-series executor reaches the provider
request (credential configured, period valid), the symbol it queries is
the alias-mapped uppercased input; the alias table maps the NASDAQ
aliases to QQQ, the S&P 500 aliases to SPY and the Dow Jones aliases to
DIA (letter case is immaterial because the input is uppercased first),
and every non-alias ticker passes through unchanged (uppercased). -/
theorem C7_index_alias_mapping (ticker : String) (p : Option String) (w : World) (k : String)
    (hk : w.avKey = some k)
    (hp : p = none ∨ p = some "daily" ∨ p = some "weekly" ∨ p = some "monthly") :
    ((getHistoricalStockData ticker p w).2.filterMap providerSymbol
        = [aliasTicker (jsToUpper ticker)]) ∧
    (aliasTicker "NASDAQ" = "QQQ" ∧ aliasTicker "^IXIC" = "QQQ" ∧
     aliasTicker "NASDAQ 100" = "QQQ" ∧ aliasTicker "COMPQ" = "QQQ") ∧
    (aliasTicker "S&P 500" = "SPY" ∧ aliasTicker "SP500" = "SPY" ∧
     aliasTicker "^GSPC" = "SPY") ∧
    (aliasTicker "DOW JONES" = "DIA" ∧ aliasTicker "DOW" = "DIA" ∧
     aliasTicker "^DJI" = "DIA") ∧
    (∀ u, u ∉ aliasNames → aliasTicker u = u) := by
  refine ⟨?_, ⟨by decide, by decide, by decide, by decide⟩,
    ⟨by decide, by decide, by decide⟩, ⟨by decide, by decide, by decide⟩, ?_⟩
  · rcases hp with hp | hp | hp | hp <;> subst hp <;>
    · unfold getHistoricalStockData
      dsimp only
      rcases w.histResp with ⟨st, m⟩ | ⟨series, em⟩
      · simp [hk, periodSeries, providerSymbol]
      · rcases series with _ | sf
        · simp [hk, periodSeries, providerSymbol]
        · rcases sf with entries | sv
          · by_cases he : entries = [] <;> simp [hk, periodSeries, providerSymbol, he]
          · simp [hk, periodSeries, providerSymbol]
  · intro u hu
    simp only [aliasTicker]
    split
    all_goals first
    | rfl
    | (exfalso; revert hu; decide)

/-- C7 witness: a lower-case NASDAQ alias queried as QQQ. -/
theorem C7_index_alias_mapping_witness :
    (getHistoricalStockData "nasdaq" none w0).2.filterMap providerSymbol = ["QQQ"] := by
  have h := (C7_index_alias_mapping "nasdaq" none w0 "A" rfl (Or.inl rfl)).1
  rw [show aliasTicker (jsToUpper "nasdaq") = "QQQ" by decide] at h
  exact h

/-- The code's fixed enumeration of supported indicator codes (the
switch labels of `index.js:246-261`, matched on the lowercased
code). -/
def supportedIndicator (ind : String) : Bool :=
  ind = "cpi" || ind = "ppi" || ind = "fomc" || ind = "interest_rate" || ind = "gdp"

/-- An unsupported code always reaches the switch's default case. -/
lemma econEndpoint_eq_none {ind cn cc2 : String}
    (h : supportedIndicator ind = false) : econEndpoint ind cn cc2 = none := by
  unfold econEndpoint
  split
  all_goals first
  | rfl
  | (exfalso; revert h; decide)

/-- C8 counterexample: with the Trading Economics credential absent and
an empty cache, the unsupported code `UNEMPLOYMENT` yields the
missing-key error, whose message and text do not name the supported
set (no mention of GDP), contradicting the claim that every
out-of-enumeration code produces an error naming the supported set. -/
theorem C8_counterexample :
    (getEconomicIndicatorData "UNEMPLOYMENT" none none none { w0 with teKey := none }).1.error
        = some "Trading Economics API key not found." ∧
    (getEconomicIndicatorData "UNEMPLOYMENT" none none none { w0 with teKey := none }).1.text
        = some "I cannot fetch economic data as the API key is not configured." ∧
    mentions "Trading Economics API key not found." "GDP" = false ∧
    mentions "I cannot fetch economic data as the API key is not configured." "GDP" = false := by
  refine ⟨by decide, by decide, by decide, by decide⟩

/-- C8 amended: for every indicator code outside the supported
enumeration (case-insensitively), no provider call is ever made; and
when the credential is configured and the cache has no live entry for
the computed key, the executor returns the unsupported-indicator error
whose text names the supported set (it mentions CPI, PPI, FOMC,
interest_rate and GDP). -/
theorem C8_unsupported_indicator (ind : String) (cc sd ed : Option String) (w : World)
    (hunsup : supportedIndicator (jsToLower ind) = false) :
    (getEconomicIndicatorData ind cc sd ed w).2.1 = [] ∧
    (∀ k, w.teKey = some k →
      cacheGet w.cache w.now (econKey ind (cc.getD "united states") sd ed) = none →
      (getEconomicIndicatorData ind cc sd ed w).1 =
        { error := some ("Unsupported economic indicator: \"" ++ ind ++ "\""),
          text := some supportedSetMsg }) ∧
    mentions supportedSetMsg "CPI" = true ∧ mentions supportedSetMsg "PPI" = true ∧
    mentions supportedSetMsg "FOMC" = true ∧ mentions supportedSetMsg "interest_rate" = true ∧
    mentions supportedSetMsg "GDP" = true := by
  refine ⟨?_, ?_, by decide, by decide, by decide, by decide, by decide⟩
  · simp only [getEconomicIndicatorData]
    rcases hg : cacheGet w.cache w.now (econKey ind (cc.getD "united states") sd ed) with _ | v
    · rcases w.teKey with _ | tk
      · rfl
      · simp [econEndpoint_eq_none hunsup]
    · rfl
  · intro k hk hg
    simp only [getEconomicIndicatorData, hg, hk, econEndpoint_eq_none hunsup]

/-- C8 witness (for the amended theorem): a concrete unsupported code
with the credential configured and an empty cache. -/
theorem C8_unsupported_indicator_witness :
    (getEconomicIndicatorData "UNEMPLOYMENT" none none none w0).2.1 = [] ∧
    (getEconomicIndicatorData "UNEMPLOYMENT" none none none w0).1 =
      { error := some ("Unsupported economic indicator: \"" ++ "UNEMPLOYMENT" ++ "\""),
        text := some supportedSetMsg } := by
  have h := C8_unsupported_indicator "UNEMPLOYMENT" none none none w0 (by decide)
  exact ⟨h.1, h.2.1 "T" rfl (by decide)⟩

/-- Appending anything to a non-empty string is non-empty. -/
lemma str_append_ne_empty (a b : String) (h : a ≠ "") : a ++ b ≠ "" := by
  obtain ⟨ad⟩ := a
  obtain ⟨bd⟩ := b
  cases ad with
  | nil => exact absurd rfl h
  | cons c cs =>
    intro he
    have hd : c :: (cs ++ bd) = [] := congrArg String.data he
    exact absurd hd (List.cons_ne_nil _ _)

/-- A fresh `cache.set` entry is read back until — and only until — the
TTL elapses. -/
lemma cacheSet_get (c : EconCache) (now now2 : Nat) (k : String) (v : ToolResult) :
    cacheGet (cacheSet c now k v) now2 k = if now2 < now + 3600 then some v else none := by
  simp [cacheGet, cacheSet, List.find?]

/-- Either the macro-indicator executor leaves the cache unchanged, or
it performed the success write: the new cache is `cache.set` of the
computed key to the returned result, which is a success value, and the
run started from a miss. -/
lemma econ_cases (ind : String) (cc sd ed : Option String) (w : World) :
    (getEconomicIndicatorData ind cc sd ed w).2.2 = w.cache ∨
    ((getEconomicIndicatorData ind cc sd ed w).2.2 =
        cacheSet w.cache w.now (econKey ind (cc.getD "united states") sd ed)
          (getEconomicIndicatorData ind cc sd ed w).1 ∧
      (getEconomicIndicatorData ind cc sd ed w).1.error = none ∧
      econSuccessB (getEconomicIndicatorData ind cc sd ed w).1 = true ∧
      cacheGet w.cache w.now (econKey ind (cc.getD "united states") sd ed) = none) := by
  simp only [getEconomicIndicatorData]
  rcases hg : cacheGet w.cache w.now (econKey ind (cc.getD "united states") sd ed) with _ | v
  · rcases w.teKey with _ | tk
    · exact Or.inl rfl
    · rcases he : econEndpoint (jsToLower ind) (jsToLower (cc.getD "united states"))
          (cc.getD "united states") with _ | ⟨ep, ec⟩
      · exact Or.inl rfl
      · rcases w.teResp with ⟨st, m⟩ | data
        · exact Or.inl rfl
        · by_cases hd : data = []
          · simp only [hd]; exact Or.inl rfl
          · simp only [if_pos (by simpa using hd)]
            refine Or.inr ⟨by trivial, by trivial, ?_, by trivial⟩
            simp only [econSuccessB, textTruthyB, Bool.and_eq_true]
            refine ⟨⟨by trivial, by trivial⟩, ?_⟩
            simp only [ne_eq, decide_eq_true_eq]
            exact str_append_ne_empty _ _ (str_append_ne_empty _ _
              (str_append_ne_empty _ _ (str_append_ne_empty _ _ (by decide))))
  · exact Or.inl rfl

/-- On a miss that ends in success, the executor wrote exactly the
returned success value under the computed key. -/
lemma econ_success_write (ind : String) (cc sd ed : Option String) (w : World)
    (hmiss : cacheGet w.cache w.now (econKey ind (cc.getD "united states") sd ed) = none)
    (hsucc : (getEconomicIndicatorData ind cc sd ed w).1.error = none) :
    (getEconomicIndicatorData ind cc sd ed w).2.2 =
        cacheSet w.cache w.now (econKey ind (cc.getD "united states") sd ed)
          (getEconomicIndicatorData ind cc sd ed w).1 ∧
    econSuccessB (getEconomicIndicatorData ind cc sd ed w).1 = true := by
  revert hsucc
  simp only [getEconomicIndicatorData, hmiss]
  rcases w.teKey with _ | tk
  · intro hsucc; exact absurd hsucc (by simp)
  · rcases econEndpoint (jsToLower ind) (jsToLower (cc.getD "united states"))
        (cc.getD "united states") with _ | ⟨ep, ec⟩
    · intro hsucc; exact absurd hsucc (by simp)
    · rcases w.teResp with ⟨st, m⟩ | data
      · intro hsucc; exact absurd hsucc (by simp)
      · by_cases hd : data = []
        · simp only [if_neg (show ¬(data ≠ []) by simpa using hd)]
          intro hsucc; exact absurd hsucc (by simp)
        · simp only [if_pos (show data ≠ [] by simpa using hd)]
          intro _
          refine ⟨by trivial, ?_⟩
          simp only [econSuccessB, textTruthyB, Bool.and_eq_true]
          refine ⟨⟨by trivial, by trivial⟩, ?_⟩
          simp only [ne_eq, decide_eq_true_eq]
          exact str_append_ne_empty _ _ (str_append_ne_empty _ _
            (str_append_ne_empty _ _ (str_append_ne_empty _ _ (by decide))))

/-- C9: the macro-indicator cache is a pure read-through memoization
keyed by (indicator, country, date range): (a) a written entry is
readable exactly until its fixed TTL elapses; (b) the executor either
leaves the cache unchanged or performs the one success write under the
computed key; (c) an error outcome never changes the cache; (d) a live
cached entry is returned as-is with no provider call and no write; (e)
after a miss that succeeded, re-running the executor with the same
arguments within the TTL returns the identical result with no provider
call and no further write. -/
theorem C9_cache_pure_memoization (ind : String) (cc sd ed : Option String) (w : World) :
    (∀ (c : EconCache) (now now2 : Nat) (k : String) (v : ToolResult),
        cacheGet (cacheSet c now k v) now2 k =
          if now2 < now + 3600 then some v else none) ∧
    ((getEconomicIndicatorData ind cc sd ed w).2.2 = w.cache ∨
      ((getEconomicIndicatorData ind cc sd ed w).2.2 =
          cacheSet w.cache w.now (econKey ind (cc.getD "united states") sd ed)
            (getEconomicIndicatorData ind cc sd ed w).1 ∧
        (getEconomicIndicatorData ind cc sd ed w).1.error = none)) ∧
    ((getEconomicIndicatorData ind cc sd ed w).1.error.isSome = true →
        (getEconomicIndicatorData ind cc sd ed w).2.2 = w.cache) ∧
    (ValidCache w.cache → ∀ v,
        cacheGet w.cache w.now (econKey ind (cc.getD "united states") sd ed) = some v →
        (getEconomicIndicatorData ind cc sd ed w).1 = v ∧
        (getEconomicIndicatorData ind cc sd ed w).2.1 = [] ∧
        (getEconomicIndicatorData ind cc sd ed w).2.2 = w.cache) ∧
    (∀ now2 : Nat,
        cacheGet w.cache w.now (econKey ind (cc.getD "united states") sd ed) = none →
        (getEconomicIndicatorData ind cc sd ed w).1.error = none →
        now2 < w.now + 3600 →
        getEconomicIndicatorData ind cc sd ed
            { w with cache := (getEconomicIndicatorData ind cc sd ed w).2.2, now := now2 } =
          ((getEconomicIndicatorData ind cc sd ed w).1, [],
            (getEconomicIndicatorData ind cc sd ed w).2.2)) := by
  refine ⟨cacheSet_get, ?_, ?_, ?_, ?_⟩
  · rcases econ_cases ind cc sd ed w with h | h
    · exact Or.inl h
    · exact Or.inr ⟨h.1, h.2.1⟩
  · intro herr
    rcases econ_cases ind cc sd ed w with h | h
    · exact h
    · rw [h.2.1] at herr; exact absurd herr (by simp)
  · intro hv v hg
    have hvv := cacheGet_valid hv hg
    refine ⟨?_, ?_, ?_⟩
    · simp only [getEconomicIndicatorData, hg]
      exact patchCached_of_success hvv _ _
    · simp only [getEconomicIndicatorData, hg]
    · simp only [getEconomicIndicatorData, hg]
  · intro now2 hmiss hsucc h2
    obtain ⟨hw, hS⟩ := econ_success_write ind cc sd ed w hmiss hsucc
    have hget2 : cacheGet (getEconomicIndicatorData ind cc sd ed w).2.2 now2
        (econKey ind (cc.getD "united states") sd ed) =
        some (getEconomicIndicatorData ind cc sd ed w).1 := by
      rw [hw, cacheSet_get, if_pos h2]
    conv_lhs => rw [getEconomicIndicatorData]
    simp only [hget2]
    rw [patchCached_of_success hS]

/-- C9 witness: a concrete miss-then-hit round trip — the second call,
one second later with the same arguments, returns the first call's
result with no provider call and no further write. -/
theorem C9_cache_pure_memoization_witness :
    getEconomicIndicatorData "CPI" none none none
        { w0 with cache := (getEconomicIndicatorData "CPI" none none none w0).2.2, now := 1 } =
      ((getEconomicIndicatorData "CPI" none none none w0).1, [],
        (getEconomicIndicatorData "CPI" none none none w0).2.2) := by
  have h := (C9_cache_pure_memoization "CPI" none none none w0).2.2.2.2
  exact h 1 (by decide) (by decide) (by decide)

/-- C10: in the macro-indicator executor the cache lookup precedes the
credential check — with the credential absent, a live cached entry is
still returned (a success value, with no provider call), and the
missing-credential error surfaces exactly on cache misses. -/
theorem C10_cache_lookup_before_credential (ind : String) (cc sd ed : Option String)
    (w : World) (hv : ValidCache w.cache) (hk : w.teKey = none) :
    (∀ v, cacheGet w.cache w.now (econKey ind (cc.getD "united states") sd ed) = some v →
      (getEconomicIndicatorData ind cc sd ed w).1 = v ∧
      v.error = none ∧ hasSuccessPayload v = true ∧
      (getEconomicIndicatorData ind cc sd ed w).2.1 = []) ∧
    (cacheGet w.cache w.now (econKey ind (cc.getD "united states") sd ed) = none →
      (getEconomicIndicatorData ind cc sd ed w).1.error
        = some "Trading Economics API key not found.") := by
  constructor
  · intro v hg
    have hvv := cacheGet_valid hv hg
    have h1 : v.error = none := by
      simp only [econSuccessB, Bool.and_eq_true] at hvv
      exact Option.isNone_iff_eq_none.mp hvv.1.1
    have h2 : hasSuccessPayload v = true := by
      simp only [econSuccessB, Bool.and_eq_true] at hvv
      simp [hasSuccessPayload, hvv.1.2]
    refine ⟨?_, h1, h2, ?_⟩
    · simp only [getEconomicIndicatorData, hg]
      exact patchCached_of_success hvv _ _
    · simp only [getEconomicIndicatorData, hg]
  · intro hg
    simp only [getEconomicIndicatorData, hg, hk]

/-- A concrete cached success value, for the C10 witness. -/
def cachedVal0 : ToolResult :=
  { indicator := some "CPI", country := some "united states",
    historical_economic_data := some [], source := some "Trading Economics",
    text := some "cached" }

/-- A world with no Trading Economics credential but a live cache
entry, for the C10 witness. -/
def w10 : World :=
  { w0 with teKey := none,
            cache := [(econKey "CPI" "united states" none none, cachedVal0, 10)],
            now := 5 }

/-- C10 witness: with no credential and a live cache entry, the cached
success value is returned and no provider call is made. -/
theorem C10_cache_lookup_before_credential_witness :
    (getEconomicIndicatorData "CPI" none none none w10).1 = cachedVal0 ∧
    (getEconomicIndicatorData "CPI" none none none w10).2.1 = [] := by
  have h := (C10_cache_lookup_before_credential "CPI" none none none w10
      (by intro e he; simp only [w10, w0, List.mem_singleton] at he; rw [he]; decide)
      rfl).1 cachedVal0 (by decide)
  exact ⟨h.1, h.2.2.2⟩

/-- An option with `isSome = false` is `none`. -/
lemma opt_eq_none {α : Type _} {o : Option α} (h : o.isSome = false) : o = none := by
  cases o with
  | none => rfl
  | some x => simp at h

/-- An outcome with no success payload has none of the side-channel
fields the aggregator reads. -/
lemma no_payload_fields {r : ToolResult} (h : hasSuccessPayload r = false) :
    r.articles = none ∧ r.historical_data = none ∧
    r.historical_economic_data = none ∧ r.imageUrl = none := by
  refine ⟨?_, ?_, ?_, ?_⟩
  · cases ha : r.articles with
    | none => rfl
    | some x => simp [hasSuccessPayload, ha] at h
  · cases ha : r.historical_data with
    | none => rfl
    | some x => simp [hasSuccessPayload, ha] at h
  · cases ha : r.historical_economic_data with
    | none => rfl
    | some x => simp [hasSuccessPayload, ha] at h
  · cases ha : r.imageUrl with
    | none => rfl
    | some x => simp [hasSuccessPayload, ha] at h

/-- An errored executor outcome has no success payload. -/
lemma no_payload_of_error {t : ToolName} {a : Args} {w : World} {m : String}
    (hv : ValidCache w.cache) (h : (runExecutor t a w).1.error = some m) :
    hasSuccessPayload (runExecutor t a w).1 = false := by
  have hx := runExecutor_excl t a w hv
  rw [h] at hx
  cases hh : hasSuccessPayload (runExecutor t a w).1
  · rfl
  · rw [hh] at hx; simp at hx

/-- A registered tool name passes the pre-switch name guard. -/
lemma nameValid_of_registered {s : String} {t : ToolName} (h : toolOf s = some t) :
    nameInvalid (.vstr s) = false := by
  unfold toolOf at h
  split at h
  all_goals first
  | decide
  | exact absurd h (by simp)

/-- A `call.name` that passes the guard is a string value. -/
lemma vstr_of_valid {v : JsVal} (h : nameInvalid v = false) : v = .vstr (jsStrVal v) := by
  cases v <;> simp [nameInvalid, isString, jsStrVal] at h ⊢

/-- Only the literal registry name selects the image tool. -/
lemma toolOf_genImage {s : String} (h : toolOf s = some .generate_image_tool) :
    s = "generate_image_tool" := by
  unfold toolOf at h
  split at h
  all_goals first
  | rfl
  | exact absurd h (by simp)

/-- `finishEnvelope` always answers 200. -/
lemma finishEnvelope_status (txt : String) (iu : Option String)
    (hs : Option (List OHLCV)) (he : Option (List EconPoint)) (arts : Option (List Article))
    (w : World) (ca : EconCache) (ex : List ToolName) (pcs : List ProviderCall)
    (fus : List (String × FPayload)) :
    (finishEnvelope txt iu hs he arts w ca ex pcs fus).status = 200 := by
  unfold finishEnvelope; split <;> rfl

/-- The body `finishEnvelope` sends: the envelope with the audio
artifact exactly when the summary is non-empty and synthesis
succeeded. -/
lemma finishEnvelope_body (txt : String) (iu : Option String)
    (hs : Option (List OHLCV)) (he : Option (List EconPoint)) (arts : Option (List Article))
    (w : World) (ca : EconCache) (ex : List ToolName) (pcs : List ProviderCall)
    (fus : List (String × FPayload)) :
    (finishEnvelope txt iu hs he arts w ca ex pcs fus).body =
      .envelope txt iu (if txt = "" then none else strTruthy (generateAudio txt w).1.audioUrl)
        hs he arts := by
  unfold finishEnvelope
  by_cases h : txt = "" <;> simp [h]

/-- The audio attempts `finishEnvelope` performs. -/
lemma finishEnvelope_attempts (txt : String) (iu : Option String)
    (hs : Option (List OHLCV)) (he : Option (List EconPoint)) (arts : Option (List Article))
    (w : World) (ca : EconCache) (ex : List ToolName) (pcs : List ProviderCall)
    (fus : List (String × FPayload)) :
    (finishEnvelope txt iu hs he arts w ca ex pcs fus).audioAttempts =
      if txt = "" then [] else [txt] := by
  unfold finishEnvelope
  by_cases h : txt = "" <;> simp [h]

/-- The executors `finishEnvelope` reports. -/
lemma finishEnvelope_executed (txt : String) (iu : Option String)
    (hs : Option (List OHLCV)) (he : Option (List EconPoint)) (arts : Option (List Article))
    (w : World) (ca : EconCache) (ex : List ToolName) (pcs : List ProviderCall)
    (fus : List (String × FPayload)) :
    (finishEnvelope txt iu hs he arts w ca ex pcs fus).executed = ex := by
  unfold finishEnvelope; split <;> rfl

/-- Erasing the audio artifact from the finished body forgets the
audio configuration entirely. -/
lemma finishEnvelope_stripBody (txt : String) (iu : Option String)
    (hs : Option (List OHLCV)) (he : Option (List EconPoint)) (arts : Option (List Article))
    (w : World) (ca : EconCache) (ex : List ToolName) (pcs : List ProviderCall)
    (fus : List (String × FPayload)) :
    stripAudio (finishEnvelope txt iu hs he arts w ca ex pcs fus).body =
      .envelope txt iu none hs he arts := by
  rw [finishEnvelope_body]; rfl

/-- The model round trips `finishEnvelope` reports. -/
lemma finishEnvelope_followups (txt : String) (iu : Option String)
    (hs : Option (List OHLCV)) (he : Option (List EconPoint)) (arts : Option (List Article))
    (w : World) (ca : EconCache) (ex : List ToolName) (pcs : List ProviderCall)
    (fus : List (String × FPayload)) :
    (finishEnvelope txt iu hs he arts w ca ex pcs fus).followups = fus := by
  unfold finishEnvelope; split <;> rfl

/-- No executor reads the audio configuration. -/
lemma runExecutor_setAudio (t : ToolName) (a : Args) (w : World)
    (k : Option String) (r : AudioResp) :
    runExecutor t a (setAudio w k r) = runExecutor t a w := by
  cases t <;> rfl

/-- The model oracle is untouched by the audio configuration. -/
lemma setAudio_synth (w : World) (k : Option String) (r : AudioResp) :
    (setAudio w k r).synth = w.synth := rfl

/-- The cache is untouched by the audio configuration. -/
lemma setAudio_cache (w : World) (k : Option String) (r : AudioResp) :
    (setAudio w k r).cache = w.cache := rfl

/-- Under the stated hypotheses, the tool-error continuation of the
handler: the error payload is sent back to the model, and the run ends
in `finishEnvelope` or in the outer catch according to that model
call. -/
lemma analyze_tool_error (c : FunctionCall) (dt : String) (w : World) (s : String)
    (t : ToolName) (m : String) (hv : ValidCache w.cache)
    (hn : c.name = .vstr s) (ht : toolOf s = some t)
    (herr : (runExecutor t c.args w).1.error = some m) :
    analyze (some c) dt w =
      (match w.synth (s, .perr m) with
       | .error e => catchResult e [t] (runExecutor t c.args w).2.1 [(s, .perr m)]
           (runExecutor t c.args w).2.2
       | .ok txt => finishEnvelope txt none none none none w (runExecutor t c.args w).2.2
           [t] (runExecutor t c.args w).2.1 [(s, .perr m)]) := by
  have hval := nameValid_of_registered ht
  have hnp := no_payload_of_error hv herr
  obtain ⟨ha, _, _, hi⟩ := no_payload_fields hnp
  simp only [analyze, hn, hval, Bool.false_eq_true, if_false, jsStrVal, ht, herr, hi, ha,
    strTruthy, ite_self]

/-- The rejection of the synthesis model call in the C4
counterexample. -/
def c4err : JsError := { message := "boom", responseStatus := none }

/-- A world where the quote credential is missing and every model
round trip rejects. -/
def c4w : World := { w0 with avKey := none, synth := fun _ => .error c4err }

/-- The model's plan in the C4 scenarios: the quote tool. -/
def c4call : FunctionCall := { name := .vstr "get_stock_data", args := { ticker := "AAPL" } }

set_option maxRecDepth 4000 in
/-- C4 counterexample: when the quote executor errs (missing Alpha
Vantage credential) and the model call that should turn the error into
an apology itself rejects, the request does NOT return success status
with an apologetic summary — the outer catch answers 500 with a generic
error body (no `summary` field, no mention of the tool name). -/
theorem C4_counterexample :
    (runExecutor .get_stock_data c4call.args c4w).1.error
        = some "Alpha Vantage API key not found." ∧
    (analyze (some c4call) "" c4w).followups
        = [("get_stock_data", .perr "Alpha Vantage API key not found.")] ∧
    (analyze (some c4call) "" c4w).status = 500 ∧
    (analyze (some c4call) "" c4w).body
        = .errBody "I'm sorry, I encountered a critical error processing your request. Please try again. If the problem persists, ensure the backend server is running correctly and check its logs." (some "boom") ∧
    mentions "I'm sorry, I encountered a critical error processing your request. Please try again. If the problem persists, ensure the backend server is running correctly and check its logs." "get_stock_data" = false := by
  refine ⟨by decide, by decide, by decide, by decide, by decide⟩

/-- C4 amended: for every tool invocation whose executor returns an
error outcome, the error payload is round-tripped through the model —
this step is never skipped; if that model call succeeds, the request
returns success status with the model's apologetic summary; if that
model call itself rejects, the outer catch returns a 500 error body
with a generic hardcoded message (not a success status, and not a
templated apology referencing the tool name). -/
theorem C4_error_roundtrip (c : FunctionCall) (dt : String) (w : World) (s : String)
    (t : ToolName) (m : String) (hv : ValidCache w.cache)
    (hn : c.name = .vstr s) (ht : toolOf s = some t)
    (herr : (runExecutor t c.args w).1.error = some m) :
    (analyze (some c) dt w).followups = [(s, .perr m)] ∧
    (∀ txt, w.synth (s, .perr m) = .ok txt →
      (analyze (some c) dt w).status = 200 ∧
      (analyze (some c) dt w).body =
        .envelope txt none
          (if txt = "" then none else strTruthy (generateAudio txt w).1.audioUrl)
          none none none) ∧
    (∀ e, w.synth (s, .perr m) = .error e →
      (analyze (some c) dt w).status = 500 ∧
      (analyze (some c) dt w).body = .errBody (catchMessage e) (some e.message)) := by
  have key := analyze_tool_error c dt w s t m hv hn ht herr
  refine ⟨?_, ?_, ?_⟩
  · rw [key]
    cases hsyn : w.synth (s, .perr m) with
    | error e => rfl
    | ok txt => exact finishEnvelope_followups _ _ _ _ _ _ _ _ _ _
  · intro txt hsyn
    rw [key, hsyn]
    exact ⟨finishEnvelope_status _ _ _ _ _ _ _ _ _ _, finishEnvelope_body _ _ _ _ _ _ _ _ _ _⟩
  · intro e hsyn
    rw [key, hsyn]
    exact ⟨rfl, rfl⟩

/-- C4 witness: the same executor error with a model that synthesizes
an apology — the round trip is recorded and the request succeeds. -/
theorem C4_error_roundtrip_witness :
    (analyze (some c4call) "" { w0 with avKey := none }).followups
        = [("get_stock_data", .perr "Alpha Vantage API key not found.")] ∧
    (analyze (some c4call) "" { w0 with avKey := none }).status = 200 := by
  have h := C4_error_roundtrip c4call "" { w0 with avKey := none } "get_stock_data"
      .get_stock_data "Alpha Vantage API key not found."
      (by intro e he; simp [w0] at he) rfl rfl (by decide)
  exact ⟨h.1, (h.2.1 "synth text" rfl).1⟩

/-- Every `/analyze` run either ends in the response-assembly tail
(`finishEnvelope`, run against the same world) or answers an error body
with no audio attempt. -/
lemma analyze_from_finish (call : Option FunctionCall) (dt : String) (w : World) :
    (∃ txt iu hs he arts ca ex pcs fus,
        analyze call dt w = finishEnvelope txt iu hs he arts w ca ex pcs fus) ∨
    ((∃ err det, (analyze call dt w).body = .errBody err det) ∧
      (analyze call dt w).audioAttempts = []) := by
  cases call with
  | none => exact Or.inl ⟨dt, none, none, none, none, w.cache, [], [], [], rfl⟩
  | some c =>
    cases hinv : nameInvalid c.name with
    | true =>
      refine Or.inr ⟨⟨invalidNameError, some invalidNameDetails, ?_⟩, ?_⟩ <;>
        simp [analyze, hinv]
    | false =>
      rcases ht : toolOf (jsStrVal c.name) with _ | t
      · refine Or.inr ⟨⟨unrecognizedError (jsStrVal c.name),
          some (unrecognizedDetails (jsStrVal c.name)), ?_⟩, ?_⟩ <;>
          simp [analyze, hinv, ht]
      · rcases herr : (runExecutor t c.args w).1.error with _ | m
        · rcases hsyn : w.synth (jsStrVal c.name, .pok (runExecutor t c.args w).1)
            with e | txt
          · refine Or.inr ⟨⟨catchMessage e, some e.message, ?_⟩, ?_⟩ <;>
              simp [analyze, hinv, ht, herr, hsyn, catchResult]
          · refine Or.inl ⟨txt,
              (if t = .generate_image_tool then strTruthy (runExecutor t c.args w).1.imageUrl
               else none),
              (runExecutor t c.args w).1.historical_data,
              (runExecutor t c.args w).1.historical_economic_data,
              (if t = .fetch_news then (runExecutor t c.args w).1.articles else none),
              (runExecutor t c.args w).2.2, [t], (runExecutor t c.args w).2.1,
              [(jsStrVal c.name, .pok (runExecutor t c.args w).1)], ?_⟩
            simp only [analyze, hinv, Bool.false_eq_true, if_false, ht, herr, hsyn]
        · rcases hsyn : w.synth (jsStrVal c.name, .perr m) with e | txt
          · refine Or.inr ⟨⟨catchMessage e, some e.message, ?_⟩, ?_⟩ <;>
              simp [analyze, hinv, ht, herr, hsyn, catchResult]
          · refine Or.inl ⟨txt,
              (if jsStrVal c.name = "generate_image_tool" then none
               else if t = .generate_image_tool then strTruthy (runExecutor t c.args w).1.imageUrl
               else none),
              none, none,
              (if t = .fetch_news then (runExecutor t c.args w).1.articles else none),
              (runExecutor t c.args w).2.2, [t], (runExecutor t c.args w).2.1,
              [(jsStrVal c.name, .perr m)], ?_⟩
            simp only [analyze, hinv, Bool.false_eq_true, if_false, ht, herr, hsyn]

/-- C5 counterexample: a run that reaches response assembly with an
empty final summary attempts no audio synthesis (the code guards the
audio step with `if (finalResponseText)`), contradicting
"attempted unconditionally". -/
theorem C5_counterexample :
    (analyze none "" w0).body = .envelope "" none none none none none ∧
    (analyze none "" w0).audioAttempts = [] :=
  ⟨by decide, by decide⟩

/-- C5 amended: for every query that reaches response assembly, audio
synthesis is attempted on the final summary text whenever that text is
non-empty, independently of which tool ran or whether it succeeded (an
empty summary skips the attempt and leaves `audioUrl` absent); the
audio artifact of the envelope is exactly the outcome of that attempt;
and the audio configuration can never change the HTTP status or any
non-audio field of the body. -/
theorem C5_audio_post_step (call : Option FunctionCall) (dt : String) (w : World) :
    (∀ s iu au hs he arts,
      (analyze call dt w).body = .envelope s iu au hs he arts →
      (s ≠ "" → (analyze call dt w).audioAttempts = [s]) ∧
      (s = "" → (analyze call dt w).audioAttempts = [] ∧ au = none) ∧
      au = (if s = "" then none else strTruthy (generateAudio s w).1.audioUrl)) ∧
    (∀ k1 r1 k2 r2,
      (analyze call dt (setAudio w k1 r1)).status
          = (analyze call dt (setAudio w k2 r2)).status ∧
      stripAudio (analyze call dt (setAudio w k1 r1)).body
          = stripAudio (analyze call dt (setAudio w k2 r2)).body) := by
  constructor
  · intro s iu au hs he arts hb
    rcases analyze_from_finish call dt w with
      ⟨txt, iu2, hs2, he2, arts2, ca, ex, pcs, fus, heq⟩ | ⟨⟨err, det, hbe⟩, hatt⟩
    · rw [heq, finishEnvelope_body] at hb
      injection hb with h1 h2 h3 h4 h5 h6
      subst h1
      refine ⟨?_, ?_, h3.symm⟩
      · intro hne
        rw [heq, finishEnvelope_attempts, if_neg hne]
      · intro hemp
        refine ⟨?_, ?_⟩
        · rw [heq, finishEnvelope_attempts, if_pos hemp]
        · rw [← h3, if_pos hemp]
    · rw [hbe] at hb
      exact absurd hb (by simp)
  · intro k1 r1 k2 r2
    cases call with
    | none =>
      constructor
      · simp only [analyze, finishEnvelope_status]
      · simp only [analyze, finishEnvelope_stripBody]
    | some c =>
      cases hinv : nameInvalid c.name with
      | true => constructor <;> simp [analyze, hinv, stripAudio]
      | false =>
        rcases ht : toolOf (jsStrVal c.name) with _ | t
        · constructor <;> simp [analyze, hinv, ht, stripAudio]
        · have e1 := runExecutor_setAudio t c.args w k1 r1
          have e2 := runExecutor_setAudio t c.args w k2 r2
          rcases herr : (runExecutor t c.args w).1.error with _ | m
          · rcases hsyn : w.synth (jsStrVal c.name, .pok (runExecutor t c.args w).1)
              with e | txt
            · constructor <;>
                simp [analyze, hinv, ht, e1, e2, herr, hsyn, setAudio_synth, catchResult, stripAudio]
            · constructor <;>
                simp [analyze, hinv, ht, e1, e2, herr, hsyn, setAudio_synth,
                  finishEnvelope_status, finishEnvelope_stripBody]
          · rcases hsyn : w.synth (jsStrVal c.name, .perr m) with e | txt
            · constructor <;>
                simp [analyze, hinv, ht, e1, e2, herr, hsyn, setAudio_synth, catchResult, stripAudio]
            · constructor <;>
                simp [analyze, hinv, ht, e1, e2, herr, hsyn, setAudio_synth,
                  finishEnvelope_status, finishEnvelope_stripBody]

/-- C5 witness: a non-empty direct answer gets exactly one audio
attempt on the summary text. -/
theorem C5_audio_post_step_witness :
    (analyze none "hello" w0).audioAttempts = ["hello"] := by
  have h := (C5_audio_post_step none "hello" w0).1 "hello"
      none (some "data:audio/mpeg;base64,AUD64") none none none (by decide)
  exact (h.1 (by decide))

/-- A value that survives the JS truthiness guard was present. -/
lemma strTruthy_some {o : Option String} {u : String} (h : strTruthy o = some u) :
    o = some u := by
  cases o with
  | none => simp [strTruthy] at h
  | some s =>
    simp only [strTruthy] at h
    by_cases hs : s = ""
    · rw [if_pos hs] at h; cases h
    · rw [if_neg hs] at h; cases h; rfl

/-- C6: in every response envelope, the image reference is non-null
only if the model invoked the image-generation tool and that executor
succeeded with that very image; when the image tool errs, the reference
in the envelope is null; and image generation is never triggered
(executor never invoked) for calls that did not name the image tool,
nor when no tool was called. -/
theorem C6_image_reference (call : Option FunctionCall) (dt : String) (w : World) :
    (∀ s iu au hs he arts u,
      (analyze call dt w).body = .envelope s iu au hs he arts → iu = some u →
      ∃ c, call = some c ∧ c.name = .vstr "generate_image_tool" ∧
        (runExecutor .generate_image_tool c.args w).1.error = none ∧
        (runExecutor .generate_image_tool c.args w).1.imageUrl = some u) ∧
    (∀ c s iu au hs he arts, call = some c → c.name = .vstr "generate_image_tool" →
      (runExecutor .generate_image_tool c.args w).1.error.isSome = true →
      (analyze call dt w).body = .envelope s iu au hs he arts → iu = none) ∧
    (∀ c, call = some c → c.name ≠ .vstr "generate_image_tool" →
      ToolName.generate_image_tool ∉ (analyze call dt w).executed) ∧
    (call = none → (analyze call dt w).executed = []) := by
  refine ⟨?_, ?_, ?_, ?_⟩
  · intro s iu au hs he arts u hb hiu
    subst hiu
    cases call with
    | none =>
      rw [show analyze none dt w
            = finishEnvelope dt none none none none w w.cache [] [] [] from rfl,
          finishEnvelope_body] at hb
      injection hb with h1 h2 h3 h4 h5 h6
      exact absurd h2 (by simp)
    | some c =>
      cases hinv : nameInvalid c.name with
      | true => simp [analyze, hinv] at hb
      | false =>
        rcases ht : toolOf (jsStrVal c.name) with _ | t
        · simp [analyze, hinv, ht] at hb
        · rcases herr : (runExecutor t c.args w).1.error with _ | m
          · rcases hsyn : w.synth (jsStrVal c.name, .pok (runExecutor t c.args w).1)
              with e | txt
            · simp [analyze, hinv, ht, herr, hsyn, catchResult] at hb
            · have hkey : analyze (some c) dt w =
                  finishEnvelope txt
                    (if t = .generate_image_tool
                     then strTruthy (runExecutor t c.args w).1.imageUrl else none)
                    (runExecutor t c.args w).1.historical_data
                    (runExecutor t c.args w).1.historical_economic_data
                    (if t = .fetch_news then (runExecutor t c.args w).1.articles else none)
                    w (runExecutor t c.args w).2.2 [t] (runExecutor t c.args w).2.1
                    [(jsStrVal c.name, .pok (runExecutor t c.args w).1)] := by
                simp only [analyze, hinv, Bool.false_eq_true, if_false, ht, herr, hsyn]
              rw [hkey, finishEnvelope_body] at hb
              injection hb with h1 h2 h3 h4 h5 h6
              by_cases hT : t = .generate_image_tool
              · subst hT
                rw [if_pos rfl] at h2
                refine ⟨c, rfl, ?_, herr, strTruthy_some h2⟩
                rw [vstr_of_valid hinv, toolOf_genImage ht]
              · rw [if_neg hT] at h2
                exact absurd h2 (by simp)
          · rcases hsyn : w.synth (jsStrVal c.name, .perr m) with e | txt
            · simp [analyze, hinv, ht, herr, hsyn, catchResult] at hb
            · have hkey : analyze (some c) dt w =
                  finishEnvelope txt
                    (if jsStrVal c.name = "generate_image_tool" then none
                     else if t = .generate_image_tool
                       then strTruthy (runExecutor t c.args w).1.imageUrl else none)
                    none none
                    (if t = .fetch_news then (runExecutor t c.args w).1.articles else none)
                    w (runExecutor t c.args w).2.2 [t] (runExecutor t c.args w).2.1
                    [(jsStrVal c.name, .perr m)] := by
                simp only [analyze, hinv, Bool.false_eq_true, if_false, ht, herr, hsyn]
              rw [hkey, finishEnvelope_body] at hb
              injection hb with h1 h2 h3 h4 h5 h6
              by_cases hS : jsStrVal c.name = "generate_image_tool"
              · rw [if_pos hS] at h2
                exact absurd h2 (by simp)
              · rw [if_neg hS] at h2
                by_cases hT : t = .generate_image_tool
                · exact absurd (toolOf_genImage (hT ▸ ht)) hS
                · rw [if_neg hT] at h2
                  exact absurd h2 (by simp)
  · intro c s iu au hs he arts hc hname herr1 hb
    subst hc
    have hsv : jsStrVal c.name = "generate_image_tool" := by rw [hname]; rfl
    have ht : toolOf (jsStrVal c.name) = some .generate_image_tool := by rw [hsv]; rfl
    have hinv : nameInvalid c.name = false := by rw [hname]; decide
    obtain ⟨m, hm⟩ : ∃ m, (runExecutor .generate_image_tool c.args w).1.error = some m := by
      cases hx : (runExecutor .generate_image_tool c.args w).1.error with
      | none => rw [hx] at herr1; simp at herr1
      | some m => exact ⟨m, rfl⟩
    rcases hsyn : w.synth (jsStrVal c.name, .perr m) with e | txt
    · have hkey : analyze (some c) dt w =
          catchResult e [.generate_image_tool]
            (runExecutor .generate_image_tool c.args w).2.1
            [(jsStrVal c.name, .perr m)]
            (runExecutor .generate_image_tool c.args w).2.2 := by
        simp only [analyze, hinv, Bool.false_eq_true, if_false, ht, hm, hsyn]
      rw [hkey] at hb
      exact absurd hb (by simp [catchResult])
    · have hkey : analyze (some c) dt w =
          finishEnvelope txt
            (if jsStrVal c.name = "generate_image_tool" then none
             else if ToolName.generate_image_tool = ToolName.generate_image_tool
               then strTruthy (runExecutor .generate_image_tool c.args w).1.imageUrl else none)
            none none
            (if ToolName.generate_image_tool = ToolName.fetch_news
             then (runExecutor .generate_image_tool c.args w).1.articles else none)
            w (runExecutor .generate_image_tool c.args w).2.2 [.generate_image_tool]
            (runExecutor .generate_image_tool c.args w).2.1
            [(jsStrVal c.name, .perr m)] := by
        simp only [analyze, hinv, Bool.false_eq_true, if_false, ht, hm, hsyn]
      rw [hkey, finishEnvelope_body] at hb
      injection hb with h1 h2 h3 h4 h5 h6
      rw [if_pos hsv] at h2
      exact h2.symm
  · intro c hc hne
    subst hc
    cases hinv : nameInvalid c.name with
    | true => simp [analyze, hinv]
    | false =>
      rcases ht : toolOf (jsStrVal c.name) with _ | t
      · simp [analyze, hinv, ht]
      · have hT : t ≠ .generate_image_tool := by
          intro hT
          subst hT
          exact hne (by rw [vstr_of_valid hinv, toolOf_genImage ht])
        have hexec : (analyze (some c) dt w).executed = [t] := by
          rcases herr : (runExecutor t c.args w).1.error with _ | m
          · rcases hsyn : w.synth (jsStrVal c.name, .pok (runExecutor t c.args w).1)
              with e | txt
            · simp [analyze, hinv, ht, herr, hsyn, catchResult]
            · simp [analyze, hinv, ht, herr, hsyn, finishEnvelope_executed]
          · rcases hsyn : w.synth (jsStrVal c.name, .perr m) with e | txt
            · simp [analyze, hinv, ht, herr, hsyn, catchResult]
            · simp [analyze, hinv, ht, herr, hsyn, finishEnvelope_executed]
        rw [hexec]
        simp only [List.mem_singleton]
        exact fun h => hT h.symm
  · intro hc
    subst hc
    exact finishEnvelope_executed dt none none none none w w.cache [] [] []

/-- The model's plan in the C6 witness: the image tool. -/
def c6call : FunctionCall :=
  { name := .vstr "generate_image_tool", args := { prompt := "chart" } }

/-- C6 witness: a successful image-tool run — the envelope's image
reference forces the image executor's success with that very image. -/
theorem C6_image_reference_witness :
    ∃ c, (some c6call : Option FunctionCall) = some c ∧
      c.name = .vstr "generate_image_tool" ∧
      (runExecutor .generate_image_tool c.args w0).1.error = none ∧
      (runExecutor .generate_image_tool c.args w0).1.imageUrl
        = some "data:image/png;base64,IMG64" :=
  (C6_image_reference (some c6call) "" w0).1 "synth text"
    (some "data:image/png;base64,IMG64") (some "data:audio/mpeg;base64,AUD64")
    none none none "data:image/png;base64,IMG64" (by decide) rfl

end HorizonAI
